import Mathlib

/-!
Verification development for the MMRdex detection-and-lifecycle engine.

Shallow embedding of the Python sources:
  src/config.py, src/ultimate_scanner.py, src/token_validator.py,
  src/database.py, src/spread_tracker.py, src/mexc_ws.py, src/pair_manager.py.
Prices and percentages are modelled as rationals; Python dicts as
association lists or functions into Option.
-/

namespace MMRdex

/-! ### Configuration constants (src/config.py) -/

def MIN_SPREAD_PERCENT : ℚ := 10

def MAX_SPREAD_PERCENT : ℚ := 1000

def MIN_LIQUIDITY_USD : ℚ := 50000

def MIN_VOLUME_24H_USD : ℚ := 30000

def MIN_TXNS_24H : ℕ := 100

def MEXC_TAKER_FEE : ℚ := 5 / 10000

def SLIPPAGE_ESTIMATE : ℚ := 5 / 1000

def TOTAL_FEES_PERCENT : ℚ := (MEXC_TAKER_FEE * 2 + SLIPPAGE_ESTIMATE) * 100

def SPREAD_CLOSURE_THRESHOLD : ℚ := 2

def WIN_THRESHOLD : ℚ := 7 / 2

def LOSE_THRESHOLD : ℚ := -(7 / 2)

/-- config.py TOKEN_BLACKLIST. -/
def TOKEN_BLACKLIST : List String :=
  ["SENTIS", "WETH", "WBTC", "WBNB", "WSOL", "WMATIC", "WAVAX",
   "USDT", "USDC", "DAI", "BUSD", "TUSD", "USDP", "FRAX",
   "ETH2", "BTC2", "SOL2"]

/-- config.py MAJOR_TOKENS (set literal; duplicates collapse). -/
def MAJOR_TOKENS : List String :=
  ["BTC", "ETH", "SOL", "BNB", "XRP", "ADA", "DOGE", "DOT", "MATIC", "SHIB",
   "AVAX", "LINK", "UNI", "ATOM", "LTC", "ETC", "XLM", "ALGO", "VET", "FIL",
   "NEAR", "APT", "OP", "ARB", "INJ", "SUI", "SEI", "TIA", "JUP", "WIF",
   "BONK", "PEPE", "FLOKI", "MEME", "ORDI", "STX", "IMX", "RUNE", "FTM",
   "DASH", "FTT", "YFI", "MKR", "AAVE", "COMP", "SNX", "BCH"]

def MAJOR_TOKEN_PRICE_RATIO_MIN : ℚ := 1 / 2

def MAJOR_TOKEN_PRICE_RATIO_MAX : ℚ := 2

def ALTCOIN_PRICE_RATIO_MIN : ℚ := 1 / 2

def ALTCOIN_PRICE_RATIO_MAX : ℚ := 2

/-! ### Basic data model -/

inductive Direction
  | LONG
  | SHORT
deriving DecidableEq, Repr

/-- Spread formula of UltimateScanner._validate_and_create_signal
(src/ultimate_scanner.py line 363): spread = ((dex_price - mexc_price) / mexc_price) * 100. -/
def computeSpread (dexPrice mexcPrice : ℚ) : ℚ :=
  ((dexPrice - mexcPrice) / mexcPrice) * 100

/-- Direction assignment (src/ultimate_scanner.py line 365):
direction = LONG if spread greater than 0 else SHORT. -/
def computeDirection (spread : ℚ) : Direction :=
  if spread > 0 then Direction.LONG else Direction.SHORT

/-- One DexScreener pair record, as consumed by the scanners.  Fields mirror
the dict keys read by the Python code; dict-get defaults become defaults. -/
structure DexPair where
  symbol : String := ""
  chain : String := ""
  pair_address : String := ""
  dex : String := ""
  price_usd : ℚ := 0
  liquidity_usd : ℚ := 0
  volume_24h : ℚ := 0
  txns_buys : ℕ := 0
  txns_sells : ℕ := 0
  url : String := ""
  token_address : Option String := none
deriving DecidableEq, Repr

/-- Python run-time errors that the embedded code can raise. -/
inductive PyError
  | unboundLocal (name : String)
deriving DecidableEq, Repr

/-- Signals produced by UltimateScanner (src/ultimate_scanner.py, dataclass
UltimateSignal; fields not used by any claim are omitted). -/
structure UltimateSignal where
  token : String
  direction : Direction
  spread_percent : ℚ
  net_profit : ℚ
  mexc_price : ℚ
  dex_price : ℚ
  chain : String
  quality_score : ℚ
deriving DecidableEq, Repr

/-- UltimateScanner._validate_and_create_signal (src/ultimate_scanner.py
lines 328-468), translated with Python local-variable semantics.

The Python function reads the local variable `chain` in the call to
validate_token at line 377, but `chain` is first assigned only at line 399;
in Python this raises UnboundLocalError as soon as control reaches line 375.
The embedding therefore returns an error at that point; everything after
line 375 is dead code in the source and has no counterpart here.
The returning paths before line 375 (volume/liquidity ratio, transaction
count, non-positive price, and spread-band rejections) are translated
faithfully; the _record_prices call at line 360 only mutates origin-detection
history and does not affect the result. -/
def validateAndCreateSignal (pair : DexPair) (mexcPrice : ℚ)
    (isNewListing : Bool) : Except PyError (Option UltimateSignal) :=
  let liq := pair.liquidity_usd
  let vol := pair.volume_24h
  if liq > 0 ∧ vol / liq < 2 / 100 then Except.ok none
  else
    let totalTxns := pair.txns_buys + pair.txns_sells
    if totalTxns < MIN_TXNS_24H then Except.ok none
    else
      let dexPrice := pair.price_usd
      if dexPrice ≤ 0 ∨ mexcPrice ≤ 0 then Except.ok none
      else
        let spread := computeSpread dexPrice mexcPrice
        let absSpread := |spread|
        let _direction := computeDirection spread
        let minSpread := if isNewListing then MIN_SPREAD_PERCENT / 2 else MIN_SPREAD_PERCENT
        if absSpread < minSpread then Except.ok none
        else if absSpread > MAX_SPREAD_PERCENT then Except.ok none
        else Except.error (PyError.unboundLocal "chain")

/-- A concrete quote that passes every filter before line 375:
turnover 100 percent, 200 transactions, positive prices, spread +20 percent
(inside the [10, 1000] band). -/
def c2FailingPair : DexPair :=
  { symbol := "FOO", chain := "bsc", price_usd := 120, liquidity_usd := 100000,
    volume_24h := 100000, txns_buys := 200, txns_sells := 0 }

/-! ### PriceFeed reconnect backoff (src/mexc_ws.py)

MEXCWebSocket.connect (lines 40-57) resets _reconnect_delay to 1 on a
successful connect.  In MEXCWebSocket.listen (lines 101-159), when connect()
fails the loop sleeps for the current _reconnect_delay and then doubles it,
capping at 30 (line 109: min(self._reconnect_delay * 2, 30)). -/

/-- Initial delay, also restored by a successful connect
(src/mexc_ws.py lines 28 and 52). -/
def connectSuccessDelay : ℕ := 1

/-- Delay update after a failed connect (src/mexc_ws.py line 109). -/
def connectFailStep (d : ℕ) : ℕ := min (d * 2) 30

/-- Value of _reconnect_delay after k consecutive failed connects since the
last successful connect (or since startup). -/
def delayAfterFailures : ℕ → ℕ
  | 0 => connectSuccessDelay
  | k + 1 => connectFailStep (delayAfterFailures k)

/-- The sleep performed upon the N-th consecutive connection failure: the
loop sleeps before updating the delay, so it sleeps delayAfterFailures (N-1). -/
def mexcReconnectSleep (n : ℕ) : ℕ := delayAfterFailures (n - 1)

/-! ### TokenValidator (src/token_validator.py) -/

/-- Python str.upper for the ASCII symbols handled here. -/
def pyUpper (s : String) : String := String.mk (s.data.map Char.toUpper)

/-- Python str.lower for the ASCII chain names handled here. -/
def pyLower (s : String) : String := String.mk (s.data.map Char.toLower)

/-- token_validator.py FAKE_TOKEN_CHAINS: major asset to chains where it
cannot legitimately exist. -/
def FAKE_TOKEN_CHAINS : List (String × List String) :=
  [("ETH", ["solana", "bsc", "base", "arbitrum", "polygon"]),
   ("BTC", ["solana", "bsc", "base", "arbitrum", "polygon", "ethereum"]),
   ("SOL", ["ethereum", "bsc", "base", "arbitrum", "polygon"]),
   ("BNB", ["solana", "ethereum", "base", "arbitrum", "polygon"])]

/-- token_validator.py VERIFIED_CONTRACTS: chain to symbol to known-good
contract address. -/
def VERIFIED_CONTRACTS : List (String × List (String × String)) :=
  [("ethereum",
    [("PEPE", "0x6982508145454ce325ddbe47a25d4ec3d2311933"),
     ("SHIB", "0x95ad61b0a150d79219dcf64e1e6cc01f0b64c4ce"),
     ("LINK", "0x514910771af9ca656af840dff83e8264ecf986ca"),
     ("UNI", "0x1f9840a85d5af5bf1d1762f925bdaddc4201f984"),
     ("MATIC", "0x7d1afa7b718fb893db30a3abc0cfc608aacfebb0"),
     ("MEME", "0xb131f4a55907b10d1f0a50d8ab8fa09ec342cd74")]),
   ("solana",
    [("BONK", "DezXAZ8z7PnrnRJjz3wXBoRgixCa6xjnB7YaB1pPB263"),
     ("WIF", "EKpQGSJtjMFqKZ9KQanSqYXRcF8fBopzLHYxdM65zcjm"),
     ("JUP", "JUPyiwrYJFskUPiHa7hkeR8VUtAeFoSYbKedZNsDvCN"),
     ("PYTH", "HZ1JovNiVvGrGNiiYvEozEVgZ58xaU3RKwX8eACQBCt3"),
     ("RNDR", "rndrizKT3MK1iimdxRdWabcF7Zg7AR5T4nud4EkHBof"),
     ("RAY", "4k3Dyjzvzp8eMZWUXbBCjEvwSkkk59S5iCNLY3QrkX6R")]),
   ("bsc",
    [("CAKE", "0x0e09fabb73bd3ade0a17ecc321fd13a19e81ce82"),
     ("XVS", "0xcf6bb5389c92bdda8a3747ddb454cb7a64626c63")]),
   ("arbitrum",
    [("ARB", "0x912ce59144191c1204e64559fe8253a0e49e6548"),
     ("GMX", "0xfc5a1a6eb076a2c7ad06eed21c56c95b7c21d3f4")]),
   ("base",
    [("AERO", "0x940181a94a35a4569e4529a3cdfb74e38fd98631")])]

/-- Lookup of a FAKE_TOKEN_CHAINS entry by (already uppercased) symbol. -/
def lookupFakeChains (symbol : String) : Option (List String) :=
  (FAKE_TOKEN_CHAINS.find? (fun p => p.1 = symbol)).map Prod.snd

/-- Lookup of the VERIFIED_CONTRACTS table for one chain. -/
def lookupVerifiedChain (chain : String) : Option (List (String × String)) :=
  (VERIFIED_CONTRACTS.find? (fun p => p.1 = chain)).map Prod.snd

/-- Lookup of a verified contract address for (chain, symbol). -/
def lookupVerifiedContract (chain symbol : String) : Option String :=
  match lookupVerifiedChain chain with
  | none => none
  | some tbl => (tbl.find? (fun p => p.1 = symbol)).map Prod.snd

/-- Reasons reported by validate_token (the source formats them as strings;
only their identity matters here). -/
inductive ValidationReason
  | ok
  | fakeTokenChain
  | priceMismatch
  | unverifiedContract
deriving DecidableEq, Repr

/-- TokenValidator.is_major_token. -/
def isMajorToken (symbol : String) : Bool :=
  MAJOR_TOKENS.contains (pyUpper symbol)

/-- TokenValidator.get_price_ratio_limits. -/
def priceRatioLimits (symbol : String) : ℚ × ℚ :=
  if isMajorToken symbol then (MAJOR_TOKEN_PRICE_RATIO_MIN, MAJOR_TOKEN_PRICE_RATIO_MAX)
  else (ALTCOIN_PRICE_RATIO_MIN, ALTCOIN_PRICE_RATIO_MAX)

/-- TokenValidator.validate_price_ratio (src/token_validator.py lines 81-99). -/
def priceRatioWithinBand (symbol : String) (dexPrice mexcPrice : ℚ) : Bool :=
  if mexcPrice ≤ 0 ∨ dexPrice ≤ 0 then false
  else
    let r := dexPrice / mexcPrice
    let limits := priceRatioLimits symbol
    if r < limits.1 ∨ r > limits.2 then false else true

/-- TokenValidator.is_likely_fake (src/token_validator.py lines 101-116). -/
def isLikelyFake (symbol chain : String) : Bool :=
  let symbol := pyUpper symbol
  let chain := pyLower chain
  match lookupFakeChains symbol with
  | some fakeChains => fakeChains.contains chain
  | none => false

/-- TokenValidator.is_verified_contract (src/token_validator.py lines 118-133). -/
def isVerifiedContract (symbol chain contractAddress : String) : Bool :=
  let chain := pyLower chain
  let symbol := pyUpper symbol
  match lookupVerifiedContract chain symbol with
  | none => false
  | some addr => pyLower contractAddress = pyLower addr

/-- TokenValidator.validate_token (src/token_validator.py lines 135-174).
The rules fire in source order: chain-impossibility first, then the price
ratio band, then the contract allow-list (majors with a supplied address
and a table entry only).  The commented-out major-token spread check in the
source is omitted, as in the source. -/
def validateToken (symbol chain : String) (dexPrice mexcPrice : ℚ)
    (spreadPercent : ℚ) (contractAddress : Option String) : Bool × ValidationReason :=
  let _ := spreadPercent
  let symbol := pyUpper symbol
  let chain := pyLower chain
  if isLikelyFake symbol chain then (false, ValidationReason.fakeTokenChain)
  else if ¬ priceRatioWithinBand symbol dexPrice mexcPrice then
    (false, ValidationReason.priceMismatch)
  else
    match contractAddress with
    | some addr =>
      if addr ≠ "" ∧ isMajorToken symbol then
        match lookupVerifiedContract chain symbol with
        | some _ =>
          if ¬ isVerifiedContract symbol chain addr then
            (false, ValidationReason.unverifiedContract)
          else (true, ValidationReason.ok)
        | none => (true, ValidationReason.ok)
      else (true, ValidationReason.ok)
    | none => (true, ValidationReason.ok)

/-! ### PairManager (src/pair_manager.py) -/

/-- pair_manager.py NATIVE_CHAINS. -/
def NATIVE_CHAINS : List (String × String) :=
  [("SOL", "solana"), ("ETH", "ethereum"), ("BNB", "bsc"), ("MATIC", "polygon"),
   ("AVAX", "avalanche"), ("FTM", "fantom"), ("ARB", "arbitrum"),
   ("OP", "optimism"), ("BASE", "base")]

/-- Cached entry for one discovered pair (pair_manager.py known_pairs values). -/
structure PairInfo where
  chain : String
  address : String
  dex : String
  verified : Bool
  updated : ℕ
deriving DecidableEq, Repr

/-- In-memory state of PairManager: the known_pairs dict and the
blacklisted_pairs set (both session state; the on-disk cache mirrors
known_pairs and is not modelled separately). -/
structure PMState where
  knownPairs : List (String × PairInfo)
  blacklisted : List String
deriving DecidableEq, Repr

def pmInit : PMState := { knownPairs := [], blacklisted := [] }

def lookupPair (l : List (String × PairInfo)) (s : String) : Option PairInfo :=
  (l.find? (fun p => p.1 = s)).map Prod.snd

def insertPair (l : List (String × PairInfo)) (s : String) (info : PairInfo) :
    List (String × PairInfo) :=
  (s, info) :: l.filter (fun p => p.1 ≠ s)

/-- Dict-get with default 0, as in tokens.get(symbol, 0). -/
def lookupPrice (tokens : List (String × ℚ)) (s : String) : ℚ :=
  match tokens.find? (fun p => p.1 = s) with
  | some p => p.2
  | none => 0

/-- PairManager._should_skip_token. -/
def shouldSkipToken (symbol : String) : Bool := TOKEN_BLACKLIST.contains symbol

/-- PairManager._validate_pair (src/pair_manager.py lines 78-127). -/
def validatePair (symbol : String) (pair : DexPair) (mexcPrice : ℚ) : Bool :=
  let chain := pyLower pair.chain
  let dexPrice := pair.price_usd
  let liquidity := pair.liquidity_usd
  let volume := pair.volume_24h
  if dexPrice ≤ 0 ∨ liquidity < MIN_LIQUIDITY_USD then false
  else
    let spread := if mexcPrice > 0 then |(dexPrice - mexcPrice) / mexcPrice * 100| else 0
    let v := validateToken symbol chain dexPrice mexcPrice spread none
    if ¬ v.1 then false
    else
      let majorOk : Bool :=
        if MAJOR_TOKENS.contains symbol then
          let chainOk : Bool :=
            match (NATIVE_CHAINS.find? (fun p => p.1 = symbol)).map Prod.snd with
            | some expected => chain = expected
            | none => true
          chainOk && decide (liquidity ≥ 100000)
        else true
      if ¬ majorOk then false
      else if liquidity > 0 ∧ volume / liquidity < 2 / 100 then false
      else true

/-- The unknown-token list built at the top of PairManager.discover_pairs
(lines 134-139).  The source shuffles this list before iterating; the shuffle
is a permutation and none of the proved properties depend on the order, so the
list is kept in input order here. -/
def unknownTokens (st : PMState) (tokens : List (String × ℚ)) : List String :=
  (tokens.map Prod.fst).filter
    (fun t => (lookupPair st.knownPairs t).isNone
      && !(st.blacklisted.contains t) && !(shouldSkipToken t))

/-- Body of the discovery loop for one symbol
(src/pair_manager.py lines 152-189).  A failed search (no pair) or a failed
validation only skips the symbol: neither known_pairs nor blacklisted_pairs
changes.  The updated field is written from time.time(); the concrete stamp
is irrelevant to every claim and is fixed to 0. -/
def discoverStep (tokens : List (String × ℚ)) (search : String → Option DexPair)
    (acc : PMState) (symbol : String) : PMState :=
  let mexcPrice := lookupPrice tokens symbol
  if mexcPrice ≤ 0 then acc
  else
    match search symbol with
    | none => acc
    | some pair =>
      if validatePair symbol pair mexcPrice then
        let info : PairInfo :=
          { chain := pair.chain, address := pair.pair_address,
            dex := pair.dex, verified := true, updated := 0 }
        { acc with knownPairs := insertPair acc.knownPairs symbol info }
      else acc

/-- PairManager.discover_pairs (src/pair_manager.py lines 129-192), with the
DexScreener search abstracted as a function from symbol to an optional pair. -/
def discoverPairs (st : PMState) (tokens : List (String × ℚ))
    (search : String → Option DexPair) : PMState :=
  (unknownTokens st tokens).foldl (discoverStep tokens search) st

/-- PairManager.invalidate_pair (src/pair_manager.py lines 225-231): removes
the pair from the cache and session-blacklists the symbol, but only when the
symbol is currently known. -/
def invalidatePair (st : PMState) (symbol : String) : PMState :=
  if (lookupPair st.knownPairs symbol).isSome then
    { knownPairs := st.knownPairs.filter (fun p => p.1 ≠ symbol),
      blacklisted := symbol :: st.blacklisted }
  else st

/-! ### SignalStore and SignalTracker (src/database.py, src/spread_tracker.py) -/

inductive Outcome
  | win
  | draw
  | lose
deriving DecidableEq, Repr

/-- Outcome classification in close_signal (src/database.py lines 169-175). -/
def classifyOutcome (priceChangePercent : ℚ) : Outcome :=
  if priceChangePercent > WIN_THRESHOLD then Outcome.win
  else if priceChangePercent < LOSE_THRESHOLD then Outcome.lose
  else Outcome.draw

/-- Price-change computation in SpreadTracker.check_closures
(src/spread_tracker.py lines 96-101): percentage move of the exchange price
since signal creation, negated for SHORT signals. -/
def trackerPriceChange (currentMexcPrice originalMexcPrice : ℚ)
    (direction : Direction) : ℚ :=
  let pc := ((currentMexcPrice - originalMexcPrice) / originalMexcPrice) * 100
  if direction = Direction.SHORT then -pc else pc

/-- One row of the signals table (columns used by the tracker). -/
structure SignalRow where
  id : ℕ
  token : String
  direction : Direction
  spreadPercent : ℚ
  mexcPrice : ℚ
  isActive : Bool
deriving DecidableEq, Repr

/-- One row of the signal_outcomes table. -/
structure OutcomeRow where
  signalId : ℕ
  outcome : Outcome
  initialSpread : ℚ
  finalSpread : ℚ
  priceChangePercent : ℚ
deriving DecidableEq, Repr

/-- The two tables the tracker touches. -/
structure TrackerDB where
  signals : List SignalRow
  outcomes : List OutcomeRow
deriving DecidableEq, Repr

/-- get_active_signals (src/database.py lines 152-160). -/
def getActiveSignals (db : TrackerDB) : List SignalRow :=
  db.signals.filter (fun s => s.isActive)

/-- The UPDATE of close_signal: set is_active = 0 for the matching id. -/
def setInactive (l : List SignalRow) (i : ℕ) : List SignalRow :=
  l.map (fun r => if r.id = i then { r with isActive := false } else r)

/-- The initial-spread SELECT of close_signal (row or 0 when absent). -/
def initialSpreadOf (db : TrackerDB) (i : ℕ) : ℚ :=
  match db.signals.find? (fun r => r.id = i) with
  | some r => r.spreadPercent
  | none => 0

/-- close_signal (src/database.py lines 163-199): reads the initial spread,
marks the signal inactive, and unconditionally inserts one outcome row.
There is no is_active guard inside this function. -/
def closeSignalDb (db : TrackerDB) (i : ℕ) (finalSpread priceChange : ℚ) :
    TrackerDB :=
  { signals := setInactive db.signals i,
    outcomes := db.outcomes ++
      [{ signalId := i, outcome := classifyOutcome priceChange,
         initialSpread := initialSpreadOf db i, finalSpread := finalSpread,
         priceChangePercent := priceChange }] }

/-- Per-signal body of SpreadTracker.check_closures (src/spread_tracker.py
lines 74-163).  mexc and dex give the current prices; a missing price (or a
current exchange price of exactly 0, which is falsy in Python) skips the
signal.  The intelligence-feedback calls and the ClosedSignal list do not
touch the database and are omitted. -/
def processSignal (mexc dex : String → Option ℚ) (acc : TrackerDB)
    (s : SignalRow) : TrackerDB :=
  match mexc s.token with
  | none => acc
  | some cur =>
    if cur = 0 then acc
    else
      match dex s.token with
      | none => acc
      | some dexPrice =>
        let currentSpread := |(dexPrice - cur) / cur * 100|
        if currentSpread < SPREAD_CLOSURE_THRESHOLD then
          closeSignalDb acc s.id currentSpread
            (trackerPriceChange cur s.mexcPrice s.direction)
        else acc

/-- SpreadTracker.check_closures (src/spread_tracker.py lines 55-165): takes
a snapshot of the active signals, then processes each against the current
prices. -/
def checkClosures (db : TrackerDB) (mexc dex : String → Option ℚ) : TrackerDB :=
  (getActiveSignals db).foldl (processSignal mexc dex) db

/-- Number of outcome rows recorded for signal id i. -/
def outcomeCount (i : ℕ) (db : TrackerDB) : ℕ :=
  db.outcomes.countP (fun o => o.signalId = i)

/-! ### Signal creation: cooldown and active-signal guards
(src/ultimate_scanner.py lines 104-111 and 388-459)

The creation region of _validate_and_create_signal runs, in source order:
the cooldown check (_is_on_cooldown), the active-signal check
(check_signal_exists against the signals table), the net-profit floor, then
save_signal (which inserts an active row) immediately followed by
_set_cooldown.  The region is modelled as a step machine over candidate and
close events; a candidate event is a quote that reached line 388. -/

def dirName : Direction → String
  | Direction.LONG => "LONG"
  | Direction.SHORT => "SHORT"

/-- Cooldown dict key (src/ultimate_scanner.py lines 105 and 110). -/
def cooldownKey (token : String) (d : Direction) : String :=
  token ++ "_" ++ dirName d

/-- _cooldown_sec (src/ultimate_scanner.py line 91): 300 seconds. -/
def COOLDOWN_SEC : ℚ := 300

/-- A signals-table row as seen by the creation guards: creation time,
token, direction and the is_active flag. -/
structure ScanRow where
  time : ℚ
  token : String
  direction : Direction
  isActive : Bool
deriving DecidableEq, Repr

/-- Scanner creation state: the in-memory _signal_cooldowns dict plus the
signals table (newest row first).  The dict is only ever read through
.get(key, 0), so it is modelled as a total function defaulting to 0. -/
structure ScanState where
  cooldowns : String → ℚ
  rows : List ScanRow

def scanInit : ScanState := { cooldowns := fun _ => 0, rows := [] }

/-- Dict assignment self._signal_cooldowns[key] = now. -/
def setCooldown (cds : String → ℚ) (k : String) (v : ℚ) : String → ℚ :=
  fun s => if s = k then v else cds s

/-- UltimateScanner._is_on_cooldown (src/ultimate_scanner.py lines 104-107):
last_time = self._signal_cooldowns.get(key, 0) and the elapsed-time test. -/
def isOnCooldown (cds : String → ℚ) (now : ℚ) (token : String)
    (d : Direction) : Bool :=
  now - cds (cooldownKey token d) < COOLDOWN_SEC

/-- check_signal_exists (src/database.py lines 244-252). -/
def signalExists (rows : List ScanRow) (token : String) (d : Direction) : Bool :=
  rows.any (fun r => r.token = token && r.direction = d && r.isActive)

/-- Events affecting the creation guards: a candidate reaching line 388
(carrying the observation time and its absolute spread) or a close of every
active signal for a (token, direction), as performed by close_signal. -/
inductive ScanEvent
  | candidate (now : ℚ) (token : String) (d : Direction) (absSpread : ℚ)
  | close (token : String) (d : Direction)
deriving DecidableEq, Repr

/-- The row update applied by close_signal to the rows of one
(token, direction): clear the is_active flag. -/
def closeRow (token : String) (d : Direction) (r : ScanRow) : ScanRow :=
  if r.token = token ∧ r.direction = d then { r with isActive := false } else r

/-- One step of the creation region (src/ultimate_scanner.py lines 388-459):
reject when on cooldown, reject when an active signal exists, reject when
net profit (absolute spread minus fees) is below 0.5, otherwise save the
signal as an active row and set the cooldown.  A close event marks the
matching rows inactive. -/
def scanStep (st : ScanState) : ScanEvent → ScanState
  | ScanEvent.candidate now token d absSpread =>
    if isOnCooldown st.cooldowns now token d then st
    else if signalExists st.rows token d then st
    else if absSpread - TOTAL_FEES_PERCENT < 1 / 2 then st
    else
      { cooldowns := setCooldown st.cooldowns (cooldownKey token d) now,
        rows := { time := now, token := token, direction := d,
                  isActive := true } :: st.rows }
  | ScanEvent.close token d =>
    { st with rows := st.rows.map (closeRow token d) }

/-- State after a whole event trace, starting from a fresh scanner. -/
def runScan (events : List ScanEvent) : ScanState :=
  events.foldl scanStep scanInit

/-- The separation required of two created rows (newest first): rows for the
same (token, direction) were created at least COOLDOWN_SEC apart. -/
def cooldownSeparated (rows : List ScanRow) : Prop :=
  rows.Pairwise (fun a b =>
    a.token = b.token → a.direction = b.direction → b.time + COOLDOWN_SEC ≤ a.time)

/-- Inductive invariant for the creation machine: created rows are
cooldown-separated, and every created row is no newer than the cooldown
entry for its key. -/
def scanInv (st : ScanState) : Prop :=
  cooldownSeparated st.rows
  ∧ ∀ r ∈ st.rows, r.time ≤ st.cooldowns (cooldownKey r.token r.direction)

/-! ### Scan-cycle result aggregation (src/ultimate_scanner.py lines 168-262)

UltimateScanner.scan collects signals by appending each priority-token result
(step 4, lines 214-225) and then extending with each batch result list
(step 5, lines 239-248).  No reordering happens before the list is
returned. -/

/-- The aggregation of one scan cycle: per-priority-token results (None when
_check_spread found nothing) followed by the per-batch result lists. -/
def scanCollect (priority : List (Option UltimateSignal))
    (batchResults : List (List UltimateSignal)) : List UltimateSignal :=
  let signals := priority.foldl
    (fun acc r => match r with | some s => acc ++ [s] | none => acc)
    ([] : List UltimateSignal)
  batchResults.foldl (fun acc l => acc ++ l) signals

/-- Modelled from the spec: the ordering the spec requires of the returned
list: descending quality score, ties broken by descending net profit. -/
def specSortedByQuality (l : List UltimateSignal) : Prop :=
  l.Pairwise (fun a b =>
    b.quality_score < a.quality_score ∨
      (b.quality_score = a.quality_score ∧ b.net_profit ≤ a.net_profit))

/-! ### PriceFeed ticker handling (src/mexc_ws.py lines 101-159)

The read loop of MEXCWebSocket.listen parses each frame and, for the ticker
channels, stores float(ticker.get("lastPrice", 0)) under the _USDT-stripped
symbol, but only when the parsed price is strictly positive.  A lastPrice
whose float() conversion raises (modelled as none) aborts the frame; the
frames processed so far stay in the map. -/

/-- The shared symbol-to-price map. -/
def PriceMap := String → Option ℚ

/-- Python dict assignment self._prices[sym] = price. -/
def storePrice (m : PriceMap) (sym : String) (p : ℚ) : PriceMap :=
  fun s => if s = sym then some p else m s

/-- MEXCWebSocket.get_price. -/
def getPrice (m : PriceMap) (sym : String) : Option ℚ := m sym

/-- One raw ticker object of a push frame.  lastPrice is the result of
float(ticker.get("lastPrice", 0)): a missing key yields some 0, an
unparsable value yields none (ValueError). -/
structure RawTicker where
  symbol : String
  lastPrice : Option ℚ
deriving DecidableEq, Repr

/-- Python endswith("_USDT") on the raw symbol. -/
def isUsdtSymbol (s : String) : Bool :=
  "_USDT".data.isSuffixOf s.data

/-- Python sym[:-5], stripping the _USDT suffix. -/
def stripUsdt (s : String) : String :=
  String.mk (s.data.take (s.data.length - 5))

/-- The per-ticker body of the read loop (src/mexc_ws.py lines 125-139):
non-USDT symbols are ignored, a price of 0 or less is discarded, a failed
float() aborts the frame (second component true) leaving the map as built so
far. -/
def processTickers (m : PriceMap) : List RawTicker → PriceMap × Bool
  | [] => (m, false)
  | t :: ts =>
    if isUsdtSymbol t.symbol then
      match t.lastPrice with
      | none => (m, true)
      | some p =>
        if p > 0 then processTickers (storePrice m (stripUsdt t.symbol) p) ts
        else processTickers m ts
    else processTickers m ts

/-- One parsed frame: a batch update (push.tickers), a single update
(push.ticker) or any other channel. -/
inductive WsMessage
  | pushTickers (tickers : List RawTicker)
  | pushTicker (t : RawTicker)
  | other
deriving DecidableEq, Repr

/-- Channel dispatch of the read loop (src/mexc_ws.py lines 121-139). -/
def processMessage (m : PriceMap) : WsMessage → PriceMap × Bool
  | WsMessage.pushTickers l => processTickers m l
  | WsMessage.pushTicker t => processTickers m [t]
  | WsMessage.other => (m, false)

/-- The invariant of the price map: every stored value is strictly positive. -/
def positivePrices (m : PriceMap) : Prop :=
  ∀ s p, m s = some p → 0 < p

/-! ### Concrete inputs used by witnesses and counterexamples -/

/-- A low-quality candidate: spread 12 percent, quality score 4. -/
def c9LowSignal : UltimateSignal :=
  { token := "AAA", direction := Direction.LONG, spread_percent := 12,
    net_profit := 12 - TOTAL_FEES_PERCENT, mexc_price := 100, dex_price := 112,
    chain := "bsc", quality_score := 4 }

/-- A high-quality candidate: spread 30 percent, quality score 10. -/
def c9HighSignal : UltimateSignal :=
  { token := "BBB", direction := Direction.LONG, spread_percent := 30,
    net_profit := 30 - TOTAL_FEES_PERCENT, mexc_price := 10, dex_price := 13,
    chain := "solana", quality_score := 10 }

/-- A DexScreener search that finds nothing (discovery failure). -/
def c7NoSearch : String → Option DexPair := fun _ => none

/-- A PairManager state that knows FOO and has FOO session-blacklisted. -/
def c7State : PMState :=
  { knownPairs := [("FOO",
      { chain := "bsc", address := "0xabc", dex := "pancakeswap",
        verified := true, updated := 0 })],
    blacklisted := ["FOO"] }

/-- A one-signal tracker database with the signal still active. -/
def c3ActiveDb : TrackerDB :=
  { signals := [{ id := 1, token := "AAA", direction := Direction.LONG,
                  spreadPercent := 20, mexcPrice := 100, isActive := true }],
    outcomes := [] }

/-- The same database with the signal already closed. -/
def c3ClosedDb : TrackerDB :=
  { signals := [{ id := 1, token := "AAA", direction := Direction.LONG,
                  spreadPercent := 20, mexcPrice := 100, isActive := false }],
    outcomes := [] }

/-- Current prices under which the spread has collapsed (both sides 106). -/
def c3Price : String → Option ℚ := fun _ => some 106

/-! ## Theorems -/

/-- Claim C1: for every quote with exchange price and DEX price both
positive, the scanner computes spread = (dexPrice - exchangePrice) /
exchangePrice * 100 and assigns direction LONG if and only if the spread is
positive, SHORT otherwise (src/ultimate_scanner.py lines 355-365). -/
theorem c1_spread_and_direction (dexPrice mexcPrice : ℚ)
    (hm : 0 < mexcPrice) (hd : 0 < dexPrice) :
    computeSpread dexPrice mexcPrice = (dexPrice - mexcPrice) / mexcPrice * 100
    ∧ (computeDirection (computeSpread dexPrice mexcPrice) = Direction.LONG
        ↔ 0 < computeSpread dexPrice mexcPrice)
    ∧ (computeDirection (computeSpread dexPrice mexcPrice) = Direction.SHORT
        ↔ ¬ 0 < computeSpread dexPrice mexcPrice) := by
  refine ⟨rfl, ?_, ?_⟩ <;>
    · unfold computeDirection
      split <;> simp_all

/-- Witness for C1 at dexPrice = 120, mexcPrice = 100. -/
theorem c1_witness :
    (0:ℚ) < 100 ∧ (0:ℚ) < 120 ∧
    (computeSpread 120 100 = (120 - 100) / 100 * 100
     ∧ (computeDirection (computeSpread 120 100) = Direction.LONG
         ↔ 0 < computeSpread 120 100)
     ∧ (computeDirection (computeSpread 120 100) = Direction.SHORT
         ↔ ¬ 0 < computeSpread 120 100)) :=
  ⟨by norm_num, by norm_num, c1_spread_and_direction 120 100 (by norm_num) (by norm_num)⟩

/-- Claim C2 (code bug): a quote whose absolute spread lies inside
[MIN_SPREAD_PERCENT, MAX_SPREAD_PERCENT] and which passes the turnover and
activity filters makes _validate_and_create_signal raise UnboundLocalError
at the validate_token call (line 377 reads the local chain, first assigned
at line 399), so the per-quote processing never reaches the validator,
cooldown, active-signal or persistence steps.  Evaluated here at the
concrete failing quote c2FailingPair with exchange price 100 (spread +20
percent). -/
theorem c2_unbound_local_chain :
    validateAndCreateSignal c2FailingPair 100 false
      = Except.error (PyError.unboundLocal "chain") := by
  unfold validateAndCreateSignal c2FailingPair computeSpread
  norm_num [MIN_TXNS_24H, MIN_SPREAD_PERCENT, MAX_SPREAD_PERCENT,
    abs_of_pos]

/-- Claim C6 counterexample: at N = 6 consecutive connection failures the
code sleeps min(2^5, 30) = 30 seconds, not min(60, 2^5) = 32 as claimed;
the doubling in the connect-failure path caps at 30
(src/mexc_ws.py line 109), not 60. -/
theorem c6_counterexample :
    mexcReconnectSleep 6 = 30 ∧ min 60 (2 ^ (6 - 1)) = 32 ∧
      mexcReconnectSleep 6 ≠ min 60 (2 ^ (6 - 1)) := by
  decide

/-- The reconnect delay after k consecutive failed connects is 2^k capped
at 30. -/
theorem delayAfterFailures_eq (k : ℕ) : delayAfterFailures k = min (2 ^ k) 30 := by
  induction k with
  | zero => rfl
  | succ n ih =>
    unfold delayAfterFailures connectFailStep
    rw [ih]
    have hpow : 2 ^ (n + 1) = 2 * 2 ^ n := by ring
    omega

/-- Claim C6 amended: after N consecutive price-feed connection failures the
computed reconnect delay equals min(2^(N-1), 30) seconds - exponential
backoff starting at 1s, doubling per attempt, capped at 30s - and a
successful connect resets the delay to 1s. -/
theorem c6_backoff_amended (n : ℕ) (h : 1 ≤ n) :
    mexcReconnectSleep n = min (2 ^ (n - 1)) 30 ∧ connectSuccessDelay = 1 :=
  ⟨delayAfterFailures_eq (n - 1), rfl⟩

/-- Witness for C6 amended at N = 6. -/
theorem c6_witness :
    1 ≤ 6 ∧ (mexcReconnectSleep 6 = min (2 ^ (6 - 1)) 30 ∧ connectSuccessDelay = 1) :=
  ⟨by norm_num, c6_backoff_amended 6 (by norm_num)⟩

/-- Claim C4: on closing a signal the price change is
(currentExchangePrice - originalExchangePrice) / originalExchangePrice * 100,
negated for SHORT; the outcome is win when above WIN_THRESHOLD = 3.5, lose
when below LOSE_THRESHOLD = -3.5, draw otherwise; and for a LONG opened at
exchange price 100, a current price of 106 gives win, 94 gives lose and 101
gives draw (src/spread_tracker.py lines 90-108, src/database.py lines
163-175). -/
theorem c4_price_change_and_outcome (cur orig : ℚ) (d : Direction)
    (h : 0 < orig) :
    trackerPriceChange cur orig d
      = (cur - orig) / orig * 100 * (if d = Direction.SHORT then -1 else 1)
    ∧ (∀ pc : ℚ,
        (classifyOutcome pc = Outcome.win ↔ pc > WIN_THRESHOLD)
        ∧ (classifyOutcome pc = Outcome.lose ↔ pc < LOSE_THRESHOLD)
        ∧ (classifyOutcome pc = Outcome.draw
            ↔ ¬ pc > WIN_THRESHOLD ∧ ¬ pc < LOSE_THRESHOLD))
    ∧ classifyOutcome (trackerPriceChange 106 100 Direction.LONG) = Outcome.win
    ∧ classifyOutcome (trackerPriceChange 94 100 Direction.LONG) = Outcome.lose
    ∧ classifyOutcome (trackerPriceChange 101 100 Direction.LONG) = Outcome.draw := by
  have hds : Direction.LONG ≠ Direction.SHORT := by decide
  refine ⟨?_, ?_, ?_, ?_, ?_⟩
  case refine_3 =>
    norm_num [trackerPriceChange, classifyOutcome, WIN_THRESHOLD, LOSE_THRESHOLD, hds]
  case refine_4 =>
    norm_num [trackerPriceChange, classifyOutcome, WIN_THRESHOLD, LOSE_THRESHOLD, hds]
  case refine_5 =>
    norm_num [trackerPriceChange, classifyOutcome, WIN_THRESHOLD, LOSE_THRESHOLD, hds]
  · unfold trackerPriceChange
    split <;> ring
  · intro pc
    unfold classifyOutcome WIN_THRESHOLD LOSE_THRESHOLD
    split <;> rename_i h1
    · refine ⟨by simp [h1], ?_, ?_⟩ <;> constructor <;> intro h2 <;>
        first
          | (exfalso; revert h2; simp; linarith)
          | (exfalso; linarith)
          | simp_all
    · split <;> rename_i h2
      · refine ⟨?_, by simp [h2], ?_⟩ <;> constructor <;> intro h3 <;>
          first
            | (exfalso; revert h3; simp; linarith)
            | (exfalso; linarith)
            | simp_all
      · refine ⟨?_, ?_, by simp_all⟩ <;> constructor <;> intro h3 <;> simp_all

/-- Witness for C4 at the claim's own example (LONG opened at 100, current
price 106). -/
theorem c4_witness :
    (0:ℚ) < 100
    ∧ classifyOutcome (trackerPriceChange 106 100 Direction.LONG) = Outcome.win :=
  ⟨by norm_num,
   (c4_price_change_and_outcome 106 100 Direction.LONG (by norm_num)).2.2.1⟩

/-- When the chain-impossibility check fires on the normalized inputs,
validate_token rejects with the fake-token reason no matter the prices,
spread or contract address. -/
theorem validateToken_of_fake (symbol chain : String)
    (h : isLikelyFake (pyUpper symbol) (pyLower chain) = true) :
    ∀ (dexPrice mexcPrice spreadPercent : ℚ) (addr : Option String),
      validateToken symbol chain dexPrice mexcPrice spreadPercent addr
        = (false, ValidationReason.fakeTokenChain) := by
  intro dexPrice mexcPrice spreadPercent addr
  unfold validateToken
  simp [h]

/-- Claim C8: for every symbol in the chain-impossibility table and every
chain listed as impossible for it, validate_token returns ok = false for
any DEX price, exchange price, spread and contract address; the rule is
the first one applied, so the reported reason is the fake-token one
(src/token_validator.py lines 101-116 and 135-174). -/
theorem c8_chain_impossibility (symbol chain : String) (chains : List String)
    (h1 : (symbol, chains) ∈ FAKE_TOKEN_CHAINS) (h2 : chain ∈ chains) :
    ∀ (dexPrice mexcPrice spreadPercent : ℚ) (addr : Option String),
      validateToken symbol chain dexPrice mexcPrice spreadPercent addr
        = (false, ValidationReason.fakeTokenChain) := by
  apply validateToken_of_fake
  fin_cases h1 <;> fin_cases h2 <;> decide

/-- Witness for C8: symbol ETH on chain solana with a perfectly matching
price ratio is still rejected. -/
theorem c8_witness :
    ("ETH", ["solana", "bsc", "base", "arbitrum", "polygon"]) ∈ FAKE_TOKEN_CHAINS
    ∧ "solana" ∈ ["solana", "bsc", "base", "arbitrum", "polygon"]
    ∧ validateToken "ETH" "solana" 1 1 0 none
        = (false, ValidationReason.fakeTokenChain) :=
  ⟨by decide, by decide,
   c8_chain_impossibility "ETH" "solana" ["solana", "bsc", "base", "arbitrum", "polygon"]
     (by decide) (by decide) 1 1 0 none⟩

/-- Claim C9 counterexample: a scan cycle whose priority pass yields a
quality-4 signal and whose batch pass yields a quality-10 signal returns
them in processing order, which is not sorted by descending quality score. -/
theorem c9_counterexample :
    ¬ specSortedByQuality (scanCollect [some c9LowSignal] [[c9HighSignal]]) := by
  unfold specSortedByQuality
  rw [show scanCollect [some c9LowSignal] [[c9HighSignal]]
      = [c9LowSignal, c9HighSignal] from rfl]
  rw [List.pairwise_cons]
  rintro ⟨hrel, -⟩
  have h := hrel c9HighSignal (by simp)
  rcases h with h | ⟨h, -⟩ <;> norm_num [c9LowSignal, c9HighSignal] at h

/-- Extending an accumulator with each batch result list appends their
concatenation. -/
theorem scan_foldl_append (L : List (List UltimateSignal)) :
    ∀ acc : List UltimateSignal,
      L.foldl (fun a l => a ++ l) acc = acc ++ L.flatten := by
  induction L with
  | nil => intro acc; simp
  | cons x t ih => intro acc; simp [ih, List.append_assoc]

/-- Appending each present priority result collects them in order. -/
theorem scan_foldl_option (P : List (Option UltimateSignal)) :
    ∀ acc : List UltimateSignal,
      P.foldl (fun acc r => match r with | some s => acc ++ [s] | none => acc) acc
        = acc ++ P.reduceOption := by
  induction P with
  | nil => intro acc; simp [List.reduceOption]
  | cons x t ih => intro acc; cases x <;> simp [ih, List.reduceOption]

/-- Claim C9 amended: UltimateScanner.scan returns the surviving candidates
in processing order - the priority-token results first, then the batch
results in batch order - with no sorting by quality score or net profit
(src/ultimate_scanner.py lines 168-262). -/
theorem c9_scan_order_amended (priority : List (Option UltimateSignal))
    (batches : List (List UltimateSignal)) :
    scanCollect priority batches = priority.reduceOption ++ batches.flatten := by
  unfold scanCollect
  rw [scan_foldl_append, scan_foldl_option]
  simp

/-- Storing a positive price preserves positivity of the map. -/
theorem storePrice_positive (m : PriceMap) (sym : String) (p : ℚ)
    (hm : positivePrices m) (hp : 0 < p) : positivePrices (storePrice m sym p) := by
  intro s q hq
  unfold storePrice at hq
  by_cases hs : s = sym
  · rw [if_pos hs] at hq
    obtain rfl : p = q := by injection hq
    exact hp
  · rw [if_neg hs] at hq
    exact hm s q hq

/-- Processing any ticker list preserves positivity of the map, whether or
not the frame aborts on an unparsable price. -/
theorem processTickers_positive :
    ∀ (l : List RawTicker) (m : PriceMap),
      positivePrices m → positivePrices (processTickers m l).1 := by
  intro l
  induction l with
  | nil => intro m hm; exact hm
  | cons t ts ih =>
    intro m hm
    unfold processTickers
    split
    · split
      · simpa using hm
      · split <;> rename_i hp
        · exact ih _ (storePrice_positive m _ _ hm hp)
        · exact ih m hm
    · exact ih m hm

/-- Claim C10: every value ever stored in the price map is strictly
positive: processing any push frame preserves the positivity invariant, a
single update with non-positive parsed price leaves the map unchanged, and
get_price on a positive map yields a positive price or absent
(src/mexc_ws.py lines 76-99 and 114-139). -/
theorem c10_price_map_positive (m : PriceMap) (hm : positivePrices m) :
    (∀ msg : WsMessage, positivePrices (processMessage m msg).1)
    ∧ (∀ (t : RawTicker) (p : ℚ), t.lastPrice = some p → p ≤ 0 →
        (processTickers m [t]).1 = m)
    ∧ ∀ s, getPrice m s = none ∨ ∃ p, getPrice m s = some p ∧ 0 < p := by
  refine ⟨?_, ?_, ?_⟩
  · intro msg
    cases msg with
    | pushTickers l => exact processTickers_positive l m hm
    | pushTicker t => exact processTickers_positive [t] m hm
    | other => exact hm
  · intro t p ht hp
    unfold processTickers
    split
    · rw [ht]
      show (if p > 0 then processTickers (storePrice m (stripUsdt t.symbol) p) []
            else processTickers m []).1 = m
      rw [if_neg (not_lt.mpr hp)]
      rfl
    · rfl
  · intro s
    cases hq : m s with
    | none => exact Or.inl hq
    | some p => exact Or.inr ⟨p, hq, hm s p hq⟩

/-- Witness for C10: the empty map is positive, and a positive single
update keeps it positive. -/
theorem c10_witness :
    positivePrices
      (processMessage (fun _ => none)
        (WsMessage.pushTicker { symbol := "BTC_USDT", lastPrice := some 5 })).1 :=
  (c10_price_map_positive (fun _ => none) (fun _ p h => Option.noConfusion h)).1
    (WsMessage.pushTicker { symbol := "BTC_USDT", lastPrice := some 5 })

/-- The per-symbol discovery step never touches the session blacklist. -/
theorem discoverStep_blacklisted (tokens : List (String × ℚ))
    (search : String → Option DexPair) (acc : PMState) (symbol : String) :
    (discoverStep tokens search acc symbol).blacklisted = acc.blacklisted := by
  unfold discoverStep
  split
  · dsimp only
    split <;> rfl
  · dsimp only
    split
    · rfl
    · split <;> rfl

/-- Folding the discovery step over any symbol list preserves the blacklist. -/
theorem discoverFold_blacklisted (tokens : List (String × ℚ))
    (search : String → Option DexPair) :
    ∀ (l : List String) (acc : PMState),
      (l.foldl (discoverStep tokens search) acc).blacklisted = acc.blacklisted := by
  intro l
  induction l with
  | nil => intro acc; rfl
  | cons s t ih =>
    intro acc
    rw [List.foldl_cons, ih, discoverStep_blacklisted]

/-- Claim C7 counterexample: a discovery cycle over the single candidate FOO
whose search finds no pair leaves the blacklist empty, and a subsequent
discovery cycle over the same candidate set retries FOO (it is again in the
unknown-token list). -/
theorem c7_counterexample :
    (discoverPairs pmInit [("FOO", 1)] c7NoSearch).blacklisted = []
    ∧ "FOO" ∈ unknownTokens (discoverPairs pmInit [("FOO", 1)] c7NoSearch)
        [("FOO", 1)] := by
  constructor
  · unfold discoverPairs
    rw [discoverFold_blacklisted]
    rfl
  · decide

/-- Claim C7 amended: a failed discovery does not blacklist the symbol (the
blacklist is unchanged by a whole discovery run, so the symbol is retried
next cycle); only an explicit invalidate_pair call on a known symbol
session-blacklists it, and blacklisted symbols are excluded from discovery. -/
theorem c7_blacklist_amended (st : PMState) (tokens : List (String × ℚ))
    (search : String → Option DexPair) (s : String) :
    (discoverPairs st tokens search).blacklisted = st.blacklisted
    ∧ ((lookupPair st.knownPairs s).isSome → s ∈ (invalidatePair st s).blacklisted)
    ∧ (s ∈ st.blacklisted → s ∉ unknownTokens st tokens) := by
  refine ⟨?_, ?_, ?_⟩
  · unfold discoverPairs
    rw [discoverFold_blacklisted]
  · intro h
    unfold invalidatePair
    rw [if_pos h]
    exact List.mem_cons_self _ _
  · intro hbl hmem
    unfold unknownTokens at hmem
    have hcond := (List.mem_filter.mp hmem).2
    have h2 := ((Bool.and_eq_true _ _).mp ((Bool.and_eq_true _ _).mp hcond).1).2
    have h3 : st.blacklisted.contains s = true := List.elem_eq_true_of_mem hbl
    rw [h3] at h2
    simp at h2

/-- Witness for C7 amended: with FOO known and blacklisted, discovery keeps
the blacklist, invalidation of the known FOO blacklists it, and the
blacklisted FOO is not rediscovered. -/
theorem c7_witness :
    (discoverPairs c7State [("FOO", 1)] c7NoSearch).blacklisted = c7State.blacklisted
    ∧ "FOO" ∈ (invalidatePair c7State "FOO").blacklisted
    ∧ "FOO" ∉ unknownTokens c7State [("FOO", 1)] :=
  ⟨(c7_blacklist_amended c7State [("FOO", 1)] c7NoSearch "FOO").1,
   (c7_blacklist_amended c7State [("FOO", 1)] c7NoSearch "FOO").2.1 (by decide),
   (c7_blacklist_amended c7State [("FOO", 1)] c7NoSearch "FOO").2.2 (by decide)⟩

/-- closeRow changes neither the creation time nor the key fields. -/
theorem closeRow_fields (token : String) (d : Direction) (r : ScanRow) :
    (closeRow token d r).time = r.time
    ∧ (closeRow token d r).token = r.token
    ∧ (closeRow token d r).direction = r.direction := by
  unfold closeRow
  split <;> exact ⟨rfl, rfl, rfl⟩

/-- One machine step preserves the creation invariant. -/
theorem scanStep_inv (st : ScanState) (e : ScanEvent) (h : scanInv st) :
    scanInv (scanStep st e) := by
  obtain ⟨hpair, hcd⟩ := h
  cases e with
  | candidate now token d sp =>
    simp only [scanStep]
    split
    · exact ⟨hpair, hcd⟩
    · split
      · exact ⟨hpair, hcd⟩
      · split
        · exact ⟨hpair, hcd⟩
        · rename_i hcool hex hnet
          have hge : COOLDOWN_SEC ≤ now - st.cooldowns (cooldownKey token d) := by
            have h1 : ¬ (now - st.cooldowns (cooldownKey token d) < COOLDOWN_SEC) := by
              simpa [isOnCooldown] using hcool
            linarith
          constructor
          · refine List.Pairwise.cons ?_ hpair
            intro r hr htok hdir
            have h1 := hcd r hr
            have hkey : cooldownKey r.token r.direction = cooldownKey token d := by
              rw [← htok, ← hdir]
            rw [hkey] at h1
            show r.time + COOLDOWN_SEC ≤ now
            linarith
          · intro r hr
            rcases List.mem_cons.mp hr with rfl | hr'
            · show now ≤ setCooldown st.cooldowns (cooldownKey token d) now
                (cooldownKey token d)
              simp [setCooldown]
            · show r.time ≤ setCooldown st.cooldowns (cooldownKey token d) now
                (cooldownKey r.token r.direction)
              by_cases hk : cooldownKey r.token r.direction = cooldownKey token d
              · have h1 := hcd r hr'
                rw [hk] at h1 ⊢
                have hpos : (0:ℚ) ≤ COOLDOWN_SEC := by norm_num [COOLDOWN_SEC]
                simp only [setCooldown, if_pos]
                linarith
              · simp only [setCooldown, if_neg hk]
                exact hcd r hr'
  | close token d =>
    constructor
    · unfold cooldownSeparated at hpair ⊢
      show (st.rows.map (closeRow token d)).Pairwise _
      rw [List.pairwise_map]
      refine hpair.imp ?_
      intro a b hab
      rw [(closeRow_fields token d a).2.1, (closeRow_fields token d b).2.1,
        (closeRow_fields token d a).2.2, (closeRow_fields token d b).2.2,
        (closeRow_fields token d a).1, (closeRow_fields token d b).1]
      exact hab
    · intro r' hr'
      rcases List.mem_map.mp hr' with ⟨r, hr, rfl⟩
      rw [(closeRow_fields token d r).1, (closeRow_fields token d r).2.1,
        (closeRow_fields token d r).2.2]
      exact hcd r hr

/-- The invariant holds along any event trace. -/
theorem scanFold_inv (l : List ScanEvent) :
    ∀ st : ScanState, scanInv st → scanInv (l.foldl scanStep st) := by
  induction l with
  | nil => intro st h; exact h
  | cons e t ih =>
    intro st h
    rw [List.foldl_cons]
    exact ih _ (scanStep_inv st e h)

/-- The fresh scanner satisfies the invariant. -/
theorem scanInv_init : scanInv scanInit := by
  constructor
  · exact List.Pairwise.nil
  · intro r hr
    cases hr

/-- Claim C5: along any trace of candidate and close events, any two Signal
rows created for the same (symbol, direction) are at least the cooldown
window (300 s) apart, and a creation step only fires when no active signal
for that (symbol, direction) exists and the pair is off cooldown
(src/ultimate_scanner.py lines 104-111 and 388-459). -/
theorem c5_cooldown_and_active_guard (events : List ScanEvent) :
    cooldownSeparated (runScan events).rows
    ∧ ∀ (st : ScanState) (now : ℚ) (token : String) (d : Direction) (sp : ℚ),
        (scanStep st (ScanEvent.candidate now token d sp)).rows ≠ st.rows →
        signalExists st.rows token d = false
        ∧ isOnCooldown st.cooldowns now token d = false := by
  constructor
  · exact (scanFold_inv events scanInit scanInv_init).1
  · intro st now token d sp hne
    simp only [scanStep] at hne
    by_cases h1 : isOnCooldown st.cooldowns now token d = true
    · rw [if_pos h1] at hne
      exact absurd rfl hne
    · rw [if_neg h1] at hne
      by_cases h2 : signalExists st.rows token d = true
      · rw [if_pos h2] at hne
        exact absurd rfl hne
      · exact ⟨Bool.not_eq_true _ ▸ h2, Bool.not_eq_true _ ▸ h1⟩

/-- Witness for C5: two rapid candidates for (AAA, LONG) 100 s apart create
one row, and the guards are demonstrably off for the first candidate. -/
theorem c5_witness :
    cooldownSeparated (runScan [ScanEvent.candidate 400 "AAA" Direction.LONG 20,
      ScanEvent.candidate 500 "AAA" Direction.LONG 20]).rows
    ∧ (signalExists scanInit.rows "AAA" Direction.LONG = false
       ∧ isOnCooldown scanInit.cooldowns 400 "AAA" Direction.LONG = false) :=
  ⟨(c5_cooldown_and_active_guard [ScanEvent.candidate 400 "AAA" Direction.LONG 20,
      ScanEvent.candidate 500 "AAA" Direction.LONG 20]).1,
   (c5_cooldown_and_active_guard [ScanEvent.candidate 400 "AAA" Direction.LONG 20,
      ScanEvent.candidate 500 "AAA" Direction.LONG 20]).2 scanInit 400 "AAA"
     Direction.LONG 20 (by
       norm_num [scanStep, isOnCooldown, signalExists, scanInit, setCooldown,
         COOLDOWN_SEC, TOTAL_FEES_PERCENT, MEXC_TAKER_FEE, SLIPPAGE_ESTIMATE])⟩

/-- processSignal either leaves the database alone or performs exactly one
close_signal call on the id of the processed signal. -/
theorem processSignal_cases (mexc dex : String → Option ℚ) (acc : TrackerDB)
    (s : SignalRow) :
    processSignal mexc dex acc s = acc
    ∨ ∃ fs pc, processSignal mexc dex acc s = closeSignalDb acc s.id fs pc := by
  unfold processSignal
  cases hm : mexc s.token with
  | none => exact Or.inl rfl
  | some cur =>
    dsimp only
    by_cases hc : cur = 0
    · rw [if_pos hc]
      exact Or.inl rfl
    · rw [if_neg hc]
      cases hd : dex s.token with
      | none => exact Or.inl rfl
      | some dp =>
        dsimp only
        by_cases hs : |(dp - cur) / cur * 100| < SPREAD_CLOSURE_THRESHOLD
        · rw [if_pos hs]
          exact Or.inr ⟨_, _, rfl⟩
        · rw [if_neg hs]
          exact Or.inl rfl

/-- close_signal adds exactly one outcome row, for its own signal id. -/
theorem closeSignalDb_outcomeCount (acc : TrackerDB) (i j : ℕ) (fs pc : ℚ) :
    outcomeCount j (closeSignalDb acc i fs pc)
      = outcomeCount j acc + (if i = j then 1 else 0) := by
  unfold outcomeCount closeSignalDb
  rw [List.countP_append]
  by_cases h : i = j <;> simp [List.countP_cons, h]

/-- Marking a signal inactive does not change the stored ids. -/
theorem setInactive_ids (l : List SignalRow) (i : ℕ) :
    (setInactive l i).map SignalRow.id = l.map SignalRow.id := by
  unfold setInactive
  rw [List.map_map]
  refine List.map_congr_left ?_
  intro a _
  by_cases h : a.id = i <;> simp [h]

/-- After setInactive l i, every row with id i is inactive. -/
theorem setInactive_self (l : List SignalRow) (i : ℕ) :
    ∀ r ∈ setInactive l i, r.id = i → r.isActive = false := by
  intro r hr hid
  rcases List.mem_map.mp hr with ⟨r0, hr0, rfl⟩
  by_cases h : r0.id = i
  · simp [h]
  · simp [h] at hid ⊢

/-- setInactive preserves rows-with-id-j-are-inactive, for any j. -/
theorem setInactive_other (l : List SignalRow) (i j : ℕ)
    (hl : ∀ r ∈ l, r.id = j → r.isActive = false) :
    ∀ r ∈ setInactive l i, r.id = j → r.isActive = false := by
  intro r hr hid
  rcases List.mem_map.mp hr with ⟨r0, hr0, rfl⟩
  by_cases h : r0.id = i
  · simp [h]
  · simp [h] at hid ⊢
    exact hl r0 hr0 hid

/-- One tracker step adds at most one outcome row for id j, and only when
processing the signal with that id. -/
theorem processSignal_count_le (mexc dex : String → Option ℚ) (acc : TrackerDB)
    (s : SignalRow) (j : ℕ) :
    outcomeCount j (processSignal mexc dex acc s)
      ≤ outcomeCount j acc + (if s.id = j then 1 else 0) := by
  rcases processSignal_cases mexc dex acc s with h | ⟨fs, pc, h⟩ <;> rw [h]
  · split <;> omega
  · rw [closeSignalDb_outcomeCount]

/-- Processing a signal with another id leaves the outcome count for j
unchanged. -/
theorem processSignal_count_other (mexc dex : String → Option ℚ)
    (acc : TrackerDB) (s : SignalRow) (j : ℕ) (h : s.id ≠ j) :
    outcomeCount j (processSignal mexc dex acc s) = outcomeCount j acc := by
  rcases processSignal_cases mexc dex acc s with hc | ⟨fs, pc, hc⟩
  · rw [hc]
  · rw [hc, closeSignalDb_outcomeCount]
    simp [h]

/-- Outcome rows are never deleted. -/
theorem processSignal_count_mono (mexc dex : String → Option ℚ)
    (acc : TrackerDB) (s : SignalRow) (j : ℕ) :
    outcomeCount j acc ≤ outcomeCount j (processSignal mexc dex acc s) := by
  rcases processSignal_cases mexc dex acc s with hc | ⟨fs, pc, hc⟩
  · rw [hc]
  · rw [hc, closeSignalDb_outcomeCount]
    omega

/-- One tracker step keeps the list of signal ids. -/
theorem processSignal_ids (mexc dex : String → Option ℚ) (acc : TrackerDB)
    (s : SignalRow) :
    (processSignal mexc dex acc s).signals.map SignalRow.id
      = acc.signals.map SignalRow.id := by
  rcases processSignal_cases mexc dex acc s with hc | ⟨fs, pc, hc⟩
  · rw [hc]
  · rw [hc]
    exact setInactive_ids acc.signals s.id

/-- One tracker step never reactivates a closed id. -/
theorem processSignal_inactive (mexc dex : String → Option ℚ) (acc : TrackerDB)
    (s : SignalRow) (j : ℕ)
    (h : ∀ r ∈ acc.signals, r.id = j → r.isActive = false) :
    ∀ r ∈ (processSignal mexc dex acc s).signals, r.id = j → r.isActive = false := by
  rcases processSignal_cases mexc dex acc s with hc | ⟨fs, pc, hc⟩ <;> rw [hc]
  · exact h
  · exact setInactive_other acc.signals s.id j h

/-- If the count for j can only have grown past c0 by a close of j, the rows
with id j are inactive afterwards. -/
theorem processSignal_P (mexc dex : String → Option ℚ) (acc : TrackerDB)
    (s : SignalRow) (j c0 : ℕ)
    (hP : c0 < outcomeCount j acc →
      ∀ r ∈ acc.signals, r.id = j → r.isActive = false) :
    c0 < outcomeCount j (processSignal mexc dex acc s) →
      ∀ r ∈ (processSignal mexc dex acc s).signals, r.id = j → r.isActive = false := by
  rcases processSignal_cases mexc dex acc s with hc | ⟨fs, pc, hc⟩ <;> rw [hc]
  · exact hP
  · intro hlt
    by_cases hij : s.id = j
    · subst hij
      exact setInactive_self acc.signals s.id
    · rw [closeSignalDb_outcomeCount] at hlt
      rw [if_neg hij, Nat.add_zero] at hlt
      exact setInactive_other acc.signals s.id j (hP hlt)

/-- Folding the tracker over a snapshot adds at most one outcome per
snapshot row with the given id. -/
theorem trackerFold_count_le (mexc dex : String → Option ℚ) (j : ℕ) :
    ∀ (l : List SignalRow) (acc : TrackerDB),
      outcomeCount j (l.foldl (processSignal mexc dex) acc)
        ≤ outcomeCount j acc + l.countP (fun s => s.id = j) := by
  intro l
  induction l with
  | nil => intro acc; simp
  | cons s t ih =>
    intro acc
    rw [List.foldl_cons, List.countP_cons]
    have h1 := ih (processSignal mexc dex acc s)
    have h2 := processSignal_count_le mexc dex acc s j
    by_cases h : s.id = j <;> simp [h] at h2 ⊢ <;> omega

/-- A snapshot with no row of id j leaves the count for j unchanged. -/
theorem trackerFold_count_none (mexc dex : String → Option ℚ) (j : ℕ) :
    ∀ (l : List SignalRow) (acc : TrackerDB), (∀ s ∈ l, s.id ≠ j) →
      outcomeCount j (l.foldl (processSignal mexc dex) acc)
        = outcomeCount j acc := by
  intro l
  induction l with
  | nil => intro acc _; rfl
  | cons s t ih =>
    intro acc h
    rw [List.foldl_cons, ih _ (fun x hx => h x (List.mem_cons_of_mem _ hx)),
      processSignal_count_other mexc dex acc s j (h s (List.mem_cons_self _ _))]

/-- Outcome counts never decrease along a fold. -/
theorem trackerFold_count_mono (mexc dex : String → Option ℚ) (j : ℕ) :
    ∀ (l : List SignalRow) (acc : TrackerDB),
      outcomeCount j acc ≤ outcomeCount j (l.foldl (processSignal mexc dex) acc) := by
  intro l
  induction l with
  | nil => intro acc; exact le_refl _
  | cons s t ih =>
    intro acc
    rw [List.foldl_cons]
    exact le_trans (processSignal_count_mono mexc dex acc s j) (ih _)

/-- The fold keeps the list of signal ids. -/
theorem trackerFold_ids (mexc dex : String → Option ℚ) :
    ∀ (l : List SignalRow) (acc : TrackerDB),
      (l.foldl (processSignal mexc dex) acc).signals.map SignalRow.id
        = acc.signals.map SignalRow.id := by
  intro l
  induction l with
  | nil => intro acc; rfl
  | cons s t ih =>
    intro acc
    rw [List.foldl_cons, ih _, processSignal_ids]

/-- The fold never reactivates rows of a closed id. -/
theorem trackerFold_inactive (mexc dex : String → Option ℚ) (j : ℕ) :
    ∀ (l : List SignalRow) (acc : TrackerDB),
      (∀ r ∈ acc.signals, r.id = j → r.isActive = false) →
      ∀ r ∈ (l.foldl (processSignal mexc dex) acc).signals,
        r.id = j → r.isActive = false := by
  intro l
  induction l with
  | nil => intro acc h; exact h
  | cons s t ih =>
    intro acc h
    rw [List.foldl_cons]
    exact ih _ (processSignal_inactive mexc dex acc s j h)

/-- Along the fold, once the count for j exceeds its starting value the rows
with id j are inactive. -/
theorem trackerFold_P (mexc dex : String → Option ℚ) (j c0 : ℕ) :
    ∀ (l : List SignalRow) (acc : TrackerDB),
      (c0 < outcomeCount j acc →
        ∀ r ∈ acc.signals, r.id = j → r.isActive = false) →
      c0 < outcomeCount j (l.foldl (processSignal mexc dex) acc) →
        ∀ r ∈ (l.foldl (processSignal mexc dex) acc).signals,
          r.id = j → r.isActive = false := by
  intro l
  induction l with
  | nil => intro acc h; exact h
  | cons s t ih =>
    intro acc h
    rw [List.foldl_cons]
    exact ih _ (processSignal_P mexc dex acc s j c0 h)

/-- With distinct ids, at most one row carries the id i. -/
theorem countP_id_le_one (i : ℕ) :
    ∀ l : List SignalRow, (l.map SignalRow.id).Nodup →
      l.countP (fun s => s.id = i) ≤ 1 := by
  intro l
  induction l with
  | nil => intro _; simp
  | cons a t ih =>
    intro h
    rw [List.map_cons, List.nodup_cons] at h
    rw [List.countP_cons]
    by_cases ha : a.id = i
    · have ht : t.countP (fun s => s.id = i) = 0 := by
        rw [List.countP_eq_zero]
        intro x hx
        simp only [decide_eq_true_eq]
        intro hxi
        exact h.1 (List.mem_map.mpr ⟨x, hx, hxi.trans ha.symm⟩)
      simp [ha, ht]
    · simp only [ha, decide_False, if_false, Nat.add_zero]
      exact ih h.2

/-- check_closures adds at most the number of active rows with id j to the
outcome count for j. -/
theorem checkClosures_count_le (db : TrackerDB) (mexc dex : String → Option ℚ)
    (j : ℕ) :
    outcomeCount j (checkClosures db mexc dex)
      ≤ outcomeCount j db + (getActiveSignals db).countP (fun s => s.id = j) :=
  trackerFold_count_le mexc dex j (getActiveSignals db) db

/-- check_closures with no active row of id j keeps j's outcome count. -/
theorem checkClosures_count_none (db : TrackerDB) (mexc dex : String → Option ℚ)
    (j : ℕ) (h : ∀ s ∈ getActiveSignals db, s.id ≠ j) :
    outcomeCount j (checkClosures db mexc dex) = outcomeCount j db :=
  trackerFold_count_none mexc dex j (getActiveSignals db) db h

/-- check_closures never removes outcome rows. -/
theorem checkClosures_count_mono (db : TrackerDB) (mexc dex : String → Option ℚ)
    (j : ℕ) :
    outcomeCount j db ≤ outcomeCount j (checkClosures db mexc dex) :=
  trackerFold_count_mono mexc dex j (getActiveSignals db) db

/-- check_closures keeps the stored signal ids. -/
theorem checkClosures_ids (db : TrackerDB) (mexc dex : String → Option ℚ) :
    (checkClosures db mexc dex).signals.map SignalRow.id
      = db.signals.map SignalRow.id :=
  trackerFold_ids mexc dex (getActiveSignals db) db

/-- check_closures keeps already-closed ids inactive. -/
theorem checkClosures_inactive (db : TrackerDB) (mexc dex : String → Option ℚ)
    (j : ℕ) (h : ∀ r ∈ db.signals, r.id = j → r.isActive = false) :
    ∀ r ∈ (checkClosures db mexc dex).signals, r.id = j → r.isActive = false :=
  trackerFold_inactive mexc dex j (getActiveSignals db) db h

/-- If check_closures recorded a new outcome for j, every row with id j is
inactive afterwards. -/
theorem checkClosures_closed_of_grew (db : TrackerDB)
    (mexc dex : String → Option ℚ) (j : ℕ)
    (hlt : outcomeCount j db < outcomeCount j (checkClosures db mexc dex)) :
    ∀ r ∈ (checkClosures db mexc dex).signals, r.id = j → r.isActive = false :=
  trackerFold_P mexc dex j (outcomeCount j db) (getActiveSignals db) db
    (fun habs => (Nat.lt_irrefl _ habs).elim) hlt

/-- When every row with id i is inactive, the active snapshot has no row
with id i. -/
theorem active_none_of_inactive (db : TrackerDB) (i : ℕ)
    (h : ∀ s ∈ db.signals, s.id = i → s.isActive = false) :
    ∀ s ∈ getActiveSignals db, s.id ≠ i := by
  intro s hs hid
  have hmem := List.mem_filter.mp hs
  have h2 := hmem.2
  rw [h s hmem.1 hid] at h2
  exact Bool.noConfusion h2

/-- Claim C3: the tracker's close path is idempotent per signal.  With
distinct signal ids: running check_closures on a database whose signal i is
already closed records no new outcome for i and keeps it inactive, and
running check_closures twice records at most one outcome for i in total -
one SignalOutcome row, not two (src/spread_tracker.py lines 55-108,
src/database.py lines 163-199). -/
theorem c3_idempotent_close (db : TrackerDB) (mexc dex : String → Option ℚ)
    (i : ℕ) (hids : (db.signals.map SignalRow.id).Nodup) :
    ((∀ s ∈ db.signals, s.id = i → s.isActive = false) →
        outcomeCount i (checkClosures db mexc dex) = outcomeCount i db
        ∧ ∀ s ∈ (checkClosures db mexc dex).signals, s.id = i → s.isActive = false)
    ∧ outcomeCount i (checkClosures (checkClosures db mexc dex) mexc dex)
        ≤ outcomeCount i db + 1 := by
  constructor
  · intro hin
    exact ⟨checkClosures_count_none db mexc dex i
        (active_none_of_inactive db i hin),
      checkClosures_inactive db mexc dex i hin⟩
  · have hids1 : ((checkClosures db mexc dex).signals.map SignalRow.id).Nodup := by
      rw [checkClosures_ids]
      exact hids
    have hsnap0 : (getActiveSignals db).countP (fun s => s.id = i) ≤ 1 :=
      le_trans (List.Sublist.countP_le _ (List.filter_sublist _))
        (countP_id_le_one i db.signals hids)
    have hsnap1 : (getActiveSignals (checkClosures db mexc dex)).countP
        (fun s => s.id = i) ≤ 1 :=
      le_trans (List.Sublist.countP_le _ (List.filter_sublist _))
        (countP_id_le_one i _ hids1)
    have h1 := checkClosures_count_le db mexc dex i
    have h2 := checkClosures_count_le (checkClosures db mexc dex) mexc dex i
    have hmono := checkClosures_count_mono db mexc dex i
    rcases Nat.lt_or_ge (outcomeCount i db)
        (outcomeCount i (checkClosures db mexc dex)) with hlt | hge
    · have heq : outcomeCount i (checkClosures (checkClosures db mexc dex) mexc dex)
          = outcomeCount i (checkClosures db mexc dex) :=
        checkClosures_count_none (checkClosures db mexc dex) mexc dex i
          (active_none_of_inactive _ i
            (checkClosures_closed_of_grew db mexc dex i hlt))
      omega
    · omega

/-- Witness for C3: a one-signal database closed by collapsed prices gains
at most one outcome over two tracker runs, and a pre-closed database gains
none. -/
theorem c3_witness :
    outcomeCount 1 (checkClosures (checkClosures c3ActiveDb c3Price c3Price)
        c3Price c3Price)
      ≤ outcomeCount 1 c3ActiveDb + 1
    ∧ outcomeCount 1 (checkClosures c3ClosedDb c3Price c3Price)
        = outcomeCount 1 c3ClosedDb :=
  ⟨(c3_idempotent_close c3ActiveDb c3Price c3Price 1 (by simp [c3ActiveDb])).2,
   ((c3_idempotent_close c3ClosedDb c3Price c3Price 1 (by simp [c3ClosedDb])).1
     (by
       intro s hs hid
       simp only [c3ClosedDb, List.mem_singleton] at hs
       subst hs
       rfl)).1⟩

end MMRdex
